import Mathlib

/-!
Verification of the async-report-service job pipeline.

The development shallowly embeds the worker's `processMessage` loop
(src/worker), the ingestion controller `generateReport`
(src/api/controllers/reportsController.js), and the MySQL-backed status
store as pure Lean functions.  Database and broker I/O outcomes are
passed in explicitly, JavaScript values relevant to validation are
modelled by `JSVal`, and the `reports` table is a keyed list of records
updated by partial field writes, mirroring the SQL `UPDATE ... SET`
statements built by `updateReportStatus`.
-/

/-- A JavaScript runtime value, as far as the controller's and worker's
validation logic inspects one: `typeof` classification and truthiness. -/
inductive JSVal where
  | undef
  | jsNull
  | boolean (b : Bool)
  | number (n : Int)
  | string (s : String)
  | object
  | array
  deriving DecidableEq, Repr

namespace JSVal

/-- JavaScript `typeof` for the modelled values (`typeof null` is
`"object"`, arrays are `"object"`). -/
def typeof : JSVal → String
  | .undef => "undefined"
  | .jsNull => "object"
  | .boolean _ => "boolean"
  | .number _ => "number"
  | .string _ => "string"
  | .object => "object"
  | .array => "object"

/-- JavaScript truthiness: `undefined`, `null`, `false`, `0` and `""`
are falsy, everything else modelled here is truthy. -/
def truthy : JSVal → Bool
  | .undef => false
  | .jsNull => false
  | .boolean b => b
  | .number n => n != 0
  | .string s => s != ""
  | .object => true
  | .array => true

/-- String interpolation of a value into a template literal. -/
def jsToString : JSVal → String
  | .undef => "undefined"
  | .jsNull => "null"
  | .boolean true => "true"
  | .boolean false => "false"
  | .number n => toString n
  | .string s => s
  | .object => "[object Object]"
  | .array => ""

end JSVal

/-- One row of the `reports` table (the columns the pipeline mutates;
`id` is the key of the surrounding store). -/
structure ReportRecord where
  status : String
  generated_url : Option String
  failure_reason : Option String
  retry_count : Nat
  deriving DecidableEq, Repr

/-- The record the controller inserts on acceptance:
`status = 'pending'`, `retry_count = 0`, URL and failure reason NULL
(schema defaults). -/
def initRecord : ReportRecord :=
  { status := "pending", generated_url := none,
    failure_reason := none, retry_count := 0 }

/-- The `reports` table: rows keyed by `id`.  The worker queries it with
whatever value the message's `report_id` field held, so keys are
`JSVal`s.  `id` is a primary key, so at most one row per key is ever
live; lookups and updates use the first match. -/
abbrev Store : Type := List (JSVal × ReportRecord)

/-- `SELECT * FROM reports WHERE id = ?` returning `results[0]`. -/
def lookupRec : Store → JSVal → Option ReportRecord
  | [], _ => none
  | (k, r) :: rest, rid => if k = rid then some r else lookupRec rest rid

/-- `UPDATE reports SET <fields> WHERE id = ?`: a partial update of the
row with the given id, every unmentioned column keeping its value. -/
def updateRec : Store → JSVal → (ReportRecord → ReportRecord) → Store
  | [], _, _ => []
  | (k, r) :: rest, rid, f =>
    if k = rid then (k, f r) :: rest
    else (k, r) :: updateRec rest rid f

/-- The single ack/nack decision the worker makes for a delivery.
`nackDead` is `channel.nack(msg, false, false)`, which the broker's
dead-letter configuration routes to the DLQ; `nackRequeue` is
`channel.nack(msg, false, true)`. -/
inductive BrokerAction where
  | ack
  | nackRequeue
  | nackDead
  deriving DecidableEq, Repr

/-- One delivered message: either its content fails `JSON.parse`, or it
parsed and the worker destructures `report_id`, `report_type` and
`parameters` from it (a missing field destructures to `undefined`). -/
inductive Message where
  | malformed (content : String)
  | parsed (report_id report_type parameters : JSVal)

/-- Outcomes of the I/O the worker performs for one delivery, in program
order: `none` means the call succeeds, `some e` that it rejects with an
error whose `.message` is `e`.  `workErr` is the `generateReport` work
function (its success value is determined by `workUrl`). -/
structure WorkerEnv where
  get1Err : Option String
  setProcessingErr : Option String
  workErr : Option String
  setCompletedErr : Option String
  get2Err : Option String
  setAccountingErr : Option String

/-- An environment in which every database call and the work function
succeed. -/
def envOk : WorkerEnv :=
  { get1Err := none, setProcessingErr := none, workErr := none,
    setCompletedErr := none, get2Err := none, setAccountingErr := none }

/-- The URL the work function returns on success:
`http://reports.example.com/<report_id>.pdf`. -/
def workUrl (rid : JSVal) : String :=
  "http://reports.example.com/" ++ rid.jsToString ++ ".pdf"

/-- The failure reason written when retries are exhausted:
`Failed after <MAX_RETRIES> retries: <error.message>`. -/
def exhaustedMsg (maxRetries : Nat) (cause : String) : String :=
  "Failed after " ++ toString maxRetries ++ " retries: " ++ cause

/-- `UPDATE ... SET status = 'processing'`. -/
def procWrite (r : ReportRecord) : ReportRecord :=
  { r with status := "processing" }

/-- `UPDATE ... SET status = 'completed', generated_url = ?`. -/
def completedWrite (url : String) (r : ReportRecord) : ReportRecord :=
  { r with status := "completed", generated_url := some url }

/-- `UPDATE ... SET status = 'pending', retry_count = ?,
failure_reason = ?` with the incremented count. -/
def pendingWrite (newCount : Nat) (reason : String)
    (r : ReportRecord) : ReportRecord :=
  { r with status := "pending", retry_count := newCount,
           failure_reason := some reason }

/-- `UPDATE ... SET status = 'failed', failure_reason = ?`. -/
def failedWrite (reason : String) (r : ReportRecord) : ReportRecord :=
  { r with status := "failed", failure_reason := some reason }

/-- The worker's outer `catch` block: re-fetch the record, and either
record a retry (`status='pending'`, incremented `retry_count`, failure
reason, nack-requeue) or a permanent failure (`status='failed'`,
exhausted-retries reason, nack to the DLQ).  If the re-fetch rejects,
the record is missing (so `report.retry_count` throws), or the
accounting write rejects, the inner `catch` nack-requeues with no store
change. -/
def catchHandler (rid : JSVal) (store : Store) (env : WorkerEnv)
    (maxRetries : Nat) (errMsg : String) : Store × BrokerAction :=
  match env.get2Err with
  | some _ => (store, .nackRequeue)
  | none =>
    match lookupRec store rid with
    | none => (store, .nackRequeue)
    | some report =>
      if report.retry_count < maxRetries then
        match env.setAccountingErr with
        | some _ => (store, .nackRequeue)
        | none =>
          (updateRec store rid
            (pendingWrite (report.retry_count + 1) errMsg), .nackRequeue)
      else
        match env.setAccountingErr with
        | some _ => (store, .nackRequeue)
        | none =>
          (updateRec store rid
            (failedWrite (exhaustedMsg maxRetries errMsg)), .nackDead)

/-- The worker's `processMessage`, as a function of the delivered
message, the current table, the delivery's I/O outcomes and
`MAX_RETRIES`.  Returns the table after the delivery and the ack/nack
decision.  Unparseable content, a falsy `report_id` and a missing record
are acked and discarded; otherwise the record is set to `processing`,
the work function runs, success writes `completed` plus the URL and
acks, and any rejection in that sequence falls into `catchHandler`. -/
def processMessage (msg : Message) (store : Store) (env : WorkerEnv)
    (maxRetries : Nat) : Store × BrokerAction :=
  match msg with
  | .malformed _ => (store, .ack)
  | .parsed rid _ _ =>
    if rid.truthy = false then (store, .ack)
    else
      match env.get1Err with
      | some e => catchHandler rid store env maxRetries e
      | none =>
        match lookupRec store rid with
        | none => (store, .ack)
        | some _ =>
          match env.setProcessingErr with
          | some e => catchHandler rid store env maxRetries e
          | none =>
            let store1 := updateRec store rid procWrite
            match env.workErr with
            | some e => catchHandler rid store1 env maxRetries e
            | none =>
              match env.setCompletedErr with
              | some e => catchHandler rid store1 env maxRetries e
              | none =>
                (updateRec store1 rid (completedWrite (workUrl rid)), .ack)

/-- Effects the ingestion controller had on its collaborators when a
call returns: whether a `reports` row was inserted and survived, whether
a broker message was published, and whether the rollback `DELETE` was
issued / succeeded. -/
structure IngestEffects where
  recordInserted : Bool
  messagePublished : Bool
  deleteIssued : Bool
  recordDeleted : Bool
  deriving DecidableEq, Repr

/-- What the controller's `generateReport` responds with: a 400
validation rejection with its message, a 500 on database insert failure
(`StorageError`), a 500 on publish failure (`QueueError`), or the 202
acceptance. -/
inductive IngestResult where
  | validationError (msg : String)
  | storageError
  | queueError
  | accepted
  deriving DecidableEq, Repr

/-- The controller's input validation, exactly as coded:
`!report_type || typeof report_type !== 'string'` rejects first, then
`parameters && typeof parameters !== 'object'`. -/
def validateSubmission (report_type parameters : JSVal) : Option String :=
  if report_type.truthy = false ∨ report_type.typeof ≠ "string" then
    some "report_type is required and must be a string"
  else if parameters.truthy = true ∧ parameters.typeof ≠ "object" then
    some "parameters must be an object"
  else none

/-- The ingestion saga of `generateReport`: validate, `INSERT` the
pending record, publish to the exchange; on publish failure issue the
compensating `DELETE` (best-effort: `deleteOk` is whether it succeeds)
and report a queue error.  `insertOk` and `publishOk` are the outcomes
of the database insert and the broker publish. -/
def ingestSubmit (report_type parameters : JSVal)
    (insertOk publishOk deleteOk : Bool) : IngestResult × IngestEffects :=
  match validateSubmission report_type parameters with
  | some m =>
    (.validationError m,
     { recordInserted := false, messagePublished := false,
       deleteIssued := false, recordDeleted := false })
  | none =>
    if insertOk = false then
      (.storageError,
       { recordInserted := false, messagePublished := false,
         deleteIssued := false, recordDeleted := false })
    else if publishOk = false then
      (.queueError,
       { recordInserted := decide (deleteOk = false),
         messagePublished := false,
         deleteIssued := true, recordDeleted := deleteOk })
    else
      (.accepted,
       { recordInserted := true, messagePublished := true,
         deleteIssued := false, recordDeleted := false })

/-- The spec's §4.1 validation condition, in the spec's own words: the
submission is rejected when `job_type` is absent or not a string, or
`payload` is present but not a structured object. -/
def specValidationRejects (job_type payload : JSVal) : Bool :=
  (decide (job_type = .undef) || !(job_type.typeof == "string"))
  || (!(decide (payload = .undef))
      && !(payload == .object || payload == .array))

/-- Stores reachable from an empty table by ingestion (inserting a fresh
pending record under an unused id) and worker deliveries. -/
inductive Reachable (maxRetries : Nat) : Store → Prop
  | init : Reachable maxRetries []
  | ingest (s : Store) (rid : JSVal) :
      Reachable maxRetries s → lookupRec s rid = none →
      Reachable maxRetries ((rid, initRecord) :: s)
  | step (s : Store) (msg : Message) (env : WorkerEnv) :
      Reachable maxRetries s →
      Reachable maxRetries (processMessage msg s env maxRetries).1

/-! ### Store lemmas -/

theorem lookupRec_updateRec (s : Store) (k k' : JSVal)
    (f : ReportRecord → ReportRecord) :
    lookupRec (updateRec s k f) k' =
      if k' = k then (lookupRec s k').map f else lookupRec s k' := by
  induction s with
  | nil => simp [lookupRec, updateRec]
  | cons hd tl ih =>
    obtain ⟨kh, rh⟩ := hd
    by_cases hk : kh = k
    · subst hk
      by_cases hk' : k' = kh
      · subst hk'
        simp [lookupRec, updateRec]
      · have hk2 : ¬ kh = k' := fun h => hk' h.symm
        simp [lookupRec, updateRec, hk', hk2]
    · by_cases hk' : kh = k'
      · subst hk'
        simp [lookupRec, updateRec, hk]
      · simp [lookupRec, updateRec, hk, hk', ih]

/-- Every record reachable by lookup satisfies `P`. -/
def AllRecords (P : ReportRecord → Prop) (s : Store) : Prop :=
  ∀ rid r, lookupRec s rid = some r → P r

theorem allRecords_nil (P : ReportRecord → Prop) : AllRecords P [] := by
  intro rid r h
  simp [lookupRec] at h

theorem allRecords_cons (P : ReportRecord → Prop) (k : JSVal)
    (r : ReportRecord) (s : Store) (hr : P r) (hs : AllRecords P s) :
    AllRecords P ((k, r) :: s) := by
  intro rid r' h
  simp only [lookupRec] at h
  by_cases hk : k = rid
  · simp [hk] at h
    exact h ▸ hr
  · rw [if_neg hk] at h
    exact hs rid r' h

theorem allRecords_updateRec (P : ReportRecord → Prop) (s : Store)
    (k : JSVal) (f : ReportRecord → ReportRecord)
    (hs : AllRecords P s) (hf : ∀ r, P r → P (f r)) :
    AllRecords P (updateRec s k f) := by
  intro rid r h
  rw [lookupRec_updateRec] at h
  by_cases hk : rid = k
  · rw [if_pos hk] at h
    obtain ⟨r0, hr0, hfr0⟩ := Option.map_eq_some'.mp h
    exact hfr0 ▸ hf r0 (hs rid r0 hr0)
  · rw [if_neg hk] at h
    exact hs rid r h

/-! ### Preservation of record invariants by one delivery -/

theorem allRecords_catchHandler (P : ReportRecord → Prop) (maxR : Nat)
    (rid : JSVal) (store : Store) (env : WorkerEnv) (e : String)
    (hPend : ∀ r c em, c < maxR → P r →
      P { r with status := "pending", retry_count := c + 1,
                 failure_reason := some em })
    (hFail : ∀ r m, P r →
      P { r with status := "failed", failure_reason := some m })
    (hAll : AllRecords P store) :
    AllRecords P (catchHandler rid store env maxR e).1 := by
  unfold catchHandler
  split
  · exact hAll
  · split
    · exact hAll
    · rename_i report hrep
      split
      · rename_i hlt
        split
        · exact hAll
        · exact allRecords_updateRec P store rid _ hAll
            (fun r hr => hPend r report.retry_count e hlt hr)
      · split
        · exact hAll
        · exact allRecords_updateRec P store rid _ hAll
            (fun r hr => hFail r _ hr)

theorem allRecords_processMessage (P : ReportRecord → Prop) (maxR : Nat)
    (msg : Message) (store : Store) (env : WorkerEnv)
    (hProc : ∀ r, P r → P { r with status := "processing" })
    (hComp : ∀ r u, P r →
      P { r with status := "completed", generated_url := some u })
    (hPend : ∀ r c em, c < maxR → P r →
      P { r with status := "pending", retry_count := c + 1,
                 failure_reason := some em })
    (hFail : ∀ r m, P r →
      P { r with status := "failed", failure_reason := some m })
    (hAll : AllRecords P store) :
    AllRecords P (processMessage msg store env maxR).1 := by
  cases msg with
  | malformed c => exact hAll
  | parsed rid jt p =>
    simp only [processMessage]
    split
    · exact hAll
    · split
      · exact allRecords_catchHandler P maxR rid store env _ hPend hFail hAll
      · split
        · exact hAll
        · have hAll1 : AllRecords P
              (updateRec store rid (fun r => { r with status := "processing" })) :=
            allRecords_updateRec P store rid _ hAll hProc
          split
          · exact allRecords_catchHandler P maxR rid store env _ hPend hFail hAll
          · split
            · exact allRecords_catchHandler P maxR rid _ env _ hPend hFail hAll1
            · split
              · exact allRecords_catchHandler P maxR rid _ env _ hPend hFail hAll1
              · exact allRecords_updateRec P _ rid _ hAll1
                  (fun r hr => hComp r _ hr)

/-! ### Retry-count monotonicity across one delivery -/

theorem lookupRec_mono_updateRec (s : Store) (k k' : JSVal)
    (f : ReportRecord → ReportRecord) (r : ReportRecord)
    (hf : ∀ x, x.retry_count ≤ (f x).retry_count)
    (h : lookupRec s k' = some r) :
    ∃ r', lookupRec (updateRec s k f) k' = some r' ∧
          r.retry_count ≤ r'.retry_count := by
  by_cases hk : k' = k
  · exact ⟨f r, by rw [lookupRec_updateRec, if_pos hk, h]; rfl, hf r⟩
  · exact ⟨r, by rw [lookupRec_updateRec, if_neg hk, h], le_refl _⟩

theorem catchHandler_retry_mono (rid : JSVal) (store : Store)
    (env : WorkerEnv) (maxR : Nat) (e : String) (k' : JSVal)
    (r : ReportRecord) (h : lookupRec store k' = some r) :
    ∃ r', lookupRec (catchHandler rid store env maxR e).1 k' = some r' ∧
          r.retry_count ≤ r'.retry_count := by
  unfold catchHandler
  split
  · exact ⟨r, h, le_refl _⟩
  · split
    · exact ⟨r, h, le_refl _⟩
    · rename_i report hrep
      split
      · split
        · exact ⟨r, h, le_refl _⟩
        · by_cases hk : k' = rid
          · refine ⟨_, by rw [lookupRec_updateRec, if_pos hk, h]; rfl, ?_⟩
            have hrr : r = report := by
              rw [hk] at h
              rw [h] at hrep
              exact Option.some.inj hrep
            rw [hrr]
            exact Nat.le_succ _
          · exact ⟨r, by rw [lookupRec_updateRec, if_neg hk, h], le_refl _⟩
      · split
        · exact ⟨r, h, le_refl _⟩
        · exact lookupRec_mono_updateRec store rid k' _ r
            (fun x => le_refl _) h

theorem processMessage_retry_mono (msg : Message) (store : Store)
    (env : WorkerEnv) (maxR : Nat) (k' : JSVal) (r : ReportRecord)
    (h : lookupRec store k' = some r) :
    ∃ r', lookupRec (processMessage msg store env maxR).1 k' = some r' ∧
          r.retry_count ≤ r'.retry_count := by
  cases msg with
  | malformed c => exact ⟨r, h, le_refl _⟩
  | parsed rid jt p =>
    simp only [processMessage]
    split
    · exact ⟨r, h, le_refl _⟩
    · split
      · exact catchHandler_retry_mono rid store env maxR _ k' r h
      · split
        · exact ⟨r, h, le_refl _⟩
        · obtain ⟨r1, h1, hle1⟩ :=
            lookupRec_mono_updateRec store rid k' procWrite r
              (fun x => le_refl _) h
          split
          · exact catchHandler_retry_mono rid store env maxR _ k' r h
          · split
            · obtain ⟨r2, h2, hle2⟩ :=
                catchHandler_retry_mono rid _ env maxR _ k' r1 h1
              exact ⟨r2, h2, le_trans hle1 hle2⟩
            · split
              · obtain ⟨r2, h2, hle2⟩ :=
                  catchHandler_retry_mono rid _ env maxR _ k' r1 h1
                exact ⟨r2, h2, le_trans hle1 hle2⟩
              · obtain ⟨r2, h2, hle2⟩ :=
                  lookupRec_mono_updateRec _ rid k'
                    (completedWrite (workUrl rid)) r1
                    (fun x => le_refl _) h1
                exact ⟨r2, h2, le_trans hle1 hle2⟩

/-! ### Worker-path characterization helpers -/

theorem processMessage_workFail (rid jt p : JSVal) (store : Store)
    (env : WorkerEnv) (maxRetries : Nat) (r : ReportRecord) (e : String)
    (hrid : rid.truthy = true) (h : lookupRec store rid = some r)
    (h1 : env.get1Err = none) (h2 : env.setProcessingErr = none)
    (hw : env.workErr = some e) :
    processMessage (.parsed rid jt p) store env maxRetries =
      catchHandler rid (updateRec store rid procWrite) env maxRetries e := by
  simp [processMessage, hrid, h1, h2, hw, h]

theorem catchHandler_eq (rid : JSVal) (store : Store) (env : WorkerEnv)
    (maxRetries : Nat) (e : String) (report : ReportRecord)
    (h3 : env.get2Err = none) (h : lookupRec store rid = some report)
    (h4 : env.setAccountingErr = none) :
    catchHandler rid store env maxRetries e =
      if report.retry_count < maxRetries then
        (updateRec store rid (pendingWrite (report.retry_count + 1) e),
         .nackRequeue)
      else
        (updateRec store rid (failedWrite (exhaustedMsg maxRetries e)),
         .nackDead) := by
  by_cases hlt : report.retry_count < maxRetries <;>
    simp [catchHandler, h3, h, h4, hlt]

theorem lookupRec_updateRec_self (s : Store) (k : JSVal)
    (f : ReportRecord → ReportRecord) (r : ReportRecord)
    (h : lookupRec s k = some r) :
    lookupRec (updateRec s k f) k = some (f r) := by
  rw [lookupRec_updateRec, if_pos rfl, h]
  rfl

/-! ### Demo fixtures -/

/-- The message for report id `"a"` used in the concrete instantiations. -/
def demoMsg : Message :=
  .parsed (.string "a") (.string "sales_summary") .object

/-- A one-row table holding the freshly ingested record for id `"a"`. -/
def demoStore0 : Store := [(JSVal.string "a", initRecord)]

/-- A delivery whose work function throws the simulated transient error
and whose database calls all succeed. -/
def envWorkFail : WorkerEnv :=
  { envOk with workErr := some "Simulated transient processing error" }

/-- One failing delivery of `demoMsg` with `MAX_RETRIES = 3`. -/
def wfStep (s : Store) : Store :=
  (processMessage demoMsg s envWorkFail 3).1

/-- The table after four failing deliveries: retries exhausted, record
`failed`. -/
def deadStore : Store := wfStep (wfStep (wfStep (wfStep demoStore0)))

/-- The table after one failing then one succeeding delivery. -/
def demoFailThenOk : Store :=
  (processMessage demoMsg (wfStep demoStore0) envOk 3).1

theorem reachable_demoStore0 : Reachable 3 demoStore0 :=
  Reachable.ingest [] (.string "a") Reachable.init rfl

theorem reachable_wfStep (s : Store) (hs : Reachable 3 s) :
    Reachable 3 (wfStep s) :=
  Reachable.step s demoMsg envWorkFail hs

theorem reachable_deadStore : Reachable 3 deadStore :=
  reachable_wfStep _ (reachable_wfStep _ (reachable_wfStep _
    (reachable_wfStep _ reachable_demoStore0)))

theorem reachable_demoFailThenOk : Reachable 3 demoFailThenOk :=
  Reachable.step _ demoMsg envOk (reachable_wfStep _ reachable_demoStore0)

/-! ### Claim theorems -/

/-- C6: a delivered message whose content is not parseable as JSON is
acknowledged and discarded: the `reports` table is untouched and the
delivery ends in `ack`, never in a requeue. -/
theorem c6_malformed_ack_no_mutation (content : String) (store : Store)
    (env : WorkerEnv) (maxRetries : Nat) :
    processMessage (.malformed content) store env maxRetries =
      (store, .ack) := rfl

/-- C10: a message that parses but whose `report_id` field is absent or
falsy is acknowledged and discarded before any database access: the
table is untouched and the delivery ends in `ack`. -/
theorem c10_missing_report_id_ack (rid jt p : JSVal) (store : Store)
    (env : WorkerEnv) (maxRetries : Nat) (h : rid.truthy = false) :
    processMessage (.parsed rid jt p) store env maxRetries =
      (store, .ack) := by
  simp [processMessage, h]

theorem c10_witness :
    JSVal.truthy .undef = false ∧
    processMessage (.parsed .undef (.string "sales_summary") .object)
      demoStore0 envOk 3 = (demoStore0, .ack) :=
  ⟨rfl, c10_missing_report_id_ack .undef (.string "sales_summary") .object
    demoStore0 envOk 3 rfl⟩

/-- C3: `retry_count` starts at 0 in the record the ingestor inserts,
never exceeds `MAX_RETRIES` in any reachable table, and a worker
delivery never decreases the `retry_count` of any record. -/
theorem c3_retry_count_invariants (maxRetries : Nat) (s : Store)
    (hs : Reachable maxRetries s) :
    initRecord.retry_count = 0 ∧
    (∀ rid r, lookupRec s rid = some r → r.retry_count ≤ maxRetries) ∧
    (∀ msg env rid r, lookupRec s rid = some r →
       ∃ r', lookupRec (processMessage msg s env maxRetries).1 rid = some r' ∧
             r.retry_count ≤ r'.retry_count) := by
  refine ⟨rfl, ?_, ?_⟩
  · induction hs with
    | init => exact allRecords_nil _
    | ingest s rid hr hfresh ih =>
        exact allRecords_cons _ rid initRecord s (Nat.zero_le _) ih
    | step s msg env hr ih =>
        exact allRecords_processMessage
          (fun r => r.retry_count ≤ maxRetries) maxRetries msg s env
          (fun r hrc => hrc) (fun r u hrc => hrc)
          (fun r c em hc hrc => hc) (fun r m hrc => hrc) ih
  · intro msg env rid r h
    exact processMessage_retry_mono msg s env maxRetries rid r h

theorem c3_witness :
    initRecord.retry_count = 0 ∧
    initRecord.retry_count ≤ 3 ∧
    (∃ r', lookupRec (processMessage demoMsg demoStore0 envWorkFail 3).1
        (.string "a") = some r' ∧ initRecord.retry_count ≤ r'.retry_count) := by
  have h := c3_retry_count_invariants 3 demoStore0 reachable_demoStore0
  exact ⟨h.1, h.2.1 (.string "a") initRecord (by decide),
    h.2.2 demoMsg envWorkFail (.string "a") initRecord (by decide)⟩

/-- C2 (amended): in every reachable table, a record with
`status = 'completed'` has `generated_url` set, and a record with
`status = 'failed'` has `failure_reason` set.  (The claim's converse
directions are false: the partial updates never clear stale fields —
see the counterexample.) -/
theorem c2_terminal_fields_forward (maxRetries : Nat) (s : Store)
    (hs : Reachable maxRetries s) (rid : JSVal) (r : ReportRecord)
    (h : lookupRec s rid = some r) :
    (r.status = "completed" → r.generated_url ≠ none) ∧
    (r.status = "failed" → r.failure_reason ≠ none) := by
  revert rid r
  show AllRecords _ s
  induction hs with
  | init => exact allRecords_nil _
  | ingest s rid hr hfresh ih =>
      refine allRecords_cons _ rid initRecord s ⟨?_, ?_⟩ ih <;>
        · intro hc
          exact absurd hc (by decide)
  | step s msg env hr ih =>
      refine allRecords_processMessage _ maxRetries msg s env
        ?_ ?_ ?_ ?_ ih
      · intro r hrc
        exact ⟨fun hc => absurd (show ("processing" : String) = "completed" from hc) (by decide),
               fun hc => absurd (show ("processing" : String) = "failed" from hc) (by decide)⟩
      · intro r u hrc
        exact ⟨fun hc => Option.some_ne_none u,
               fun hc => absurd (show ("completed" : String) = "failed" from hc) (by decide)⟩
      · intro r c em hc hrc
        exact ⟨fun hx => absurd (show ("pending" : String) = "completed" from hx) (by decide),
               fun hx => absurd (show ("pending" : String) = "failed" from hx) (by decide)⟩
      · intro r m hrc
        exact ⟨fun hx => absurd (show ("failed" : String) = "completed" from hx) (by decide),
               fun hx => Option.some_ne_none m⟩

theorem c2_witness :
    ((ReportRecord.mk "completed"
        (some "http://reports.example.com/a.pdf")
        (some "Simulated transient processing error") 1).status = "completed" →
      (ReportRecord.mk "completed"
        (some "http://reports.example.com/a.pdf")
        (some "Simulated transient processing error") 1).generated_url ≠ none) ∧
    ((ReportRecord.mk "completed"
        (some "http://reports.example.com/a.pdf")
        (some "Simulated transient processing error") 1).status = "failed" →
      (ReportRecord.mk "completed"
        (some "http://reports.example.com/a.pdf")
        (some "Simulated transient processing error") 1).failure_reason ≠ none) :=
  c2_terminal_fields_forward 3 demoFailThenOk reachable_demoFailThenOk
    (.string "a") _ (by decide)

/-- C2 counterexample: after one failing delivery and one succeeding
redelivery — a reachable run — the record is `completed` yet still
carries the stale `failure_reason` from the failed attempt, because the
success write only sets `status` and `generated_url`.  This falsifies
"a job whose status is completed has failure_reason unset" and hence
the claimed biconditional. -/
theorem c2_counterexample :
    Reachable 3 demoFailThenOk ∧
    lookupRec demoFailThenOk (.string "a") =
      some (ReportRecord.mk "completed"
        (some "http://reports.example.com/a.pdf")
        (some "Simulated transient processing error") 1) ∧
    (ReportRecord.mk "completed"
        (some "http://reports.example.com/a.pdf")
        (some "Simulated transient processing error") 1).status = "completed" ∧
    (ReportRecord.mk "completed"
        (some "http://reports.example.com/a.pdf")
        (some "Simulated transient processing error") 1).failure_reason ≠
      none :=
  ⟨reachable_demoFailThenOk, by decide, rfl, by decide⟩

/-- C1 (amended): the worker performs no terminal-status re-check.  A
redelivered message whose record exists — whatever its status, terminal
included — is re-processed like any other delivery: the record is
rewritten to `processing` and, when the work function succeeds, to
`completed` with a fresh `generated_url`; only then is the message
acked.  Ack-without-mutation happens only for malformed messages, falsy
`report_id`s, and missing records. -/
theorem c1_terminal_redelivery_reprocessed (rid jt p : JSVal)
    (store : Store) (maxRetries : Nat) (r : ReportRecord)
    (hrid : rid.truthy = true) (h : lookupRec store rid = some r) :
    (processMessage (.parsed rid jt p) store envOk maxRetries).2 = .ack ∧
    lookupRec (processMessage (.parsed rid jt p) store envOk maxRetries).1
        rid =
      some { r with status := "completed",
                    generated_url := some (workUrl rid) } := by
  have hred : processMessage (.parsed rid jt p) store envOk maxRetries =
      (updateRec (updateRec store rid procWrite) rid
        (completedWrite (workUrl rid)), .ack) := by
    simp [processMessage, hrid, envOk, h]
  rw [hred]
  refine ⟨rfl, ?_⟩
  rw [lookupRec_updateRec_self _ _ _ (procWrite r)
    (lookupRec_updateRec_self _ _ _ r h)]
  rfl

theorem c1_witness :
    (processMessage demoMsg deadStore envOk 3).2 = .ack ∧
    lookupRec (processMessage demoMsg deadStore envOk 3).1 (.string "a") =
      some { (ReportRecord.mk "failed" none
          (some "Failed after 3 retries: Simulated transient processing error")
          3) with
        status := "completed", generated_url := some (workUrl (.string "a")) } :=
  c1_terminal_redelivery_reprocessed (.string "a") (.string "sales_summary")
    .object deadStore 3 _ (by decide) (by decide)

/-- C1 counterexample: `deadStore` is reachable (four failing
deliveries exhaust the retries) and its record for `"a"` is terminal
(`failed`).  Redelivering the job's message in an all-success
environment does not ack-and-leave-unchanged: the table changes and the
record is rewritten to `completed`, contradicting the claimed no-op. -/
theorem c1_counterexample :
    Reachable 3 deadStore ∧
    lookupRec deadStore (.string "a") =
      some (ReportRecord.mk "failed" none
        (some "Failed after 3 retries: Simulated transient processing error")
        3) ∧
    (processMessage demoMsg deadStore envOk 3).1 ≠ deadStore ∧
    lookupRec (processMessage demoMsg deadStore envOk 3).1 (.string "a") =
      some (ReportRecord.mk "completed"
        (some "http://reports.example.com/a.pdf")
        (some "Failed after 3 retries: Simulated transient processing error")
        3) :=
  ⟨reachable_deadStore, by decide, by decide, by decide⟩

/-- C4: when the work function fails on a delivery whose record was
found and set to `processing` (all database calls succeeding), the
worker applies the retry policy against the record's current
`retry_count`: below `MAX_RETRIES` it writes `status='pending'`,
`retry_count + 1` and the failure reason and nack-requeues; at or above
`MAX_RETRIES` it writes `status='failed'` with the exhausted-retries
reason and nacks without requeue, which the broker topology routes to
the DLQ. -/
theorem c4_work_failure_retry_policy (rid jt p : JSVal) (store : Store)
    (env : WorkerEnv) (maxRetries : Nat) (r : ReportRecord) (e : String)
    (hrid : rid.truthy = true) (h : lookupRec store rid = some r)
    (h1 : env.get1Err = none) (h2 : env.setProcessingErr = none)
    (hw : env.workErr = some e) (h3 : env.get2Err = none)
    (h4 : env.setAccountingErr = none) :
    (r.retry_count < maxRetries →
       (processMessage (.parsed rid jt p) store env maxRetries).2 =
         .nackRequeue ∧
       lookupRec (processMessage (.parsed rid jt p) store env maxRetries).1
           rid =
         some { r with status := "pending",
                       retry_count := r.retry_count + 1,
                       failure_reason := some e }) ∧
    (maxRetries ≤ r.retry_count →
       (processMessage (.parsed rid jt p) store env maxRetries).2 =
         .nackDead ∧
       lookupRec (processMessage (.parsed rid jt p) store env maxRetries).1
           rid =
         some { r with status := "failed",
                       failure_reason :=
                         some (exhaustedMsg maxRetries e) }) := by
  have hlk : lookupRec (updateRec store rid procWrite) rid =
      some (procWrite r) := lookupRec_updateRec_self _ _ _ r h
  have hred := processMessage_workFail rid jt p store env maxRetries r e
    hrid h h1 h2 hw
  have hch := catchHandler_eq rid (updateRec store rid procWrite) env
    maxRetries e (procWrite r) h3 hlk h4
  constructor
  · intro hlt
    have hlt' : (procWrite r).retry_count < maxRetries := hlt
    rw [hred, hch, if_pos hlt']
    exact ⟨rfl, by rw [lookupRec_updateRec_self _ _ _ _ hlk]; rfl⟩
  · intro hge
    have hge' : ¬ (procWrite r).retry_count < maxRetries :=
      Nat.not_lt.mpr hge
    rw [hred, hch, if_neg hge']
    exact ⟨rfl, by rw [lookupRec_updateRec_self _ _ _ _ hlk]; rfl⟩

theorem c4_witness :
    initRecord.retry_count < 3 ∧
    (processMessage demoMsg demoStore0 envWorkFail 3).2 = .nackRequeue ∧
    lookupRec (processMessage demoMsg demoStore0 envWorkFail 3).1
        (.string "a") =
      some { initRecord with status := "pending",
                             retry_count := initRecord.retry_count + 1,
                             failure_reason :=
                               some "Simulated transient processing error" } :=
  ⟨by decide,
   (c4_work_failure_retry_policy (.string "a") (.string "sales_summary")
     .object demoStore0 envWorkFail 3 initRecord
     "Simulated transient processing error"
     (by decide) (by decide) rfl rfl rfl rfl rfl).1 (by decide)⟩

/-- C5 counterexample: in the reachable exhausted run, the failure
reason actually written is
`Failed after 3 retries: Simulated transient processing error`, which
is not the spec's `exhausted retries: <cause>` shape. -/
theorem c5_counterexample :
    Reachable 3 deadStore ∧
    lookupRec deadStore (.string "a") =
      some (ReportRecord.mk "failed" none
        (some "Failed after 3 retries: Simulated transient processing error")
        3) ∧
    some "Failed after 3 retries: Simulated transient processing error" ≠
      some ("exhausted retries: " ++ "Simulated transient processing error") :=
  ⟨reachable_deadStore, by decide, by decide⟩

/-- C5 (amended): when retries are exhausted the failure reason written
is `Failed after <MAX_RETRIES> retries: <cause>`, where `<cause>` is
the failing error's message and `<MAX_RETRIES>` the configured bound. -/
theorem c5_exhausted_failure_reason (rid jt p : JSVal) (store : Store)
    (env : WorkerEnv) (maxRetries : Nat) (r : ReportRecord) (e : String)
    (hrid : rid.truthy = true) (h : lookupRec store rid = some r)
    (h1 : env.get1Err = none) (h2 : env.setProcessingErr = none)
    (hw : env.workErr = some e) (h3 : env.get2Err = none)
    (h4 : env.setAccountingErr = none)
    (hge : maxRetries ≤ r.retry_count) :
    lookupRec (processMessage (.parsed rid jt p) store env maxRetries).1
        rid =
      some { r with status := "failed",
                    failure_reason :=
                      some ("Failed after " ++ toString maxRetries ++
                        " retries: " ++ e) } := by
  have hlk : lookupRec (updateRec store rid procWrite) rid =
      some (procWrite r) := lookupRec_updateRec_self _ _ _ r h
  have hge' : ¬ (procWrite r).retry_count < maxRetries :=
    Nat.not_lt.mpr hge
  rw [processMessage_workFail rid jt p store env maxRetries r e hrid h h1 h2
    hw,
    catchHandler_eq rid (updateRec store rid procWrite) env maxRetries e
      (procWrite r) h3 hlk h4,
    if_neg hge']
  rw [lookupRec_updateRec_self _ _ _ _ hlk]
  rfl

theorem c5_witness :
    lookupRec (processMessage demoMsg (wfStep (wfStep (wfStep demoStore0)))
        envWorkFail 3).1 (.string "a") =
      some { (ReportRecord.mk "pending" none
          (some "Simulated transient processing error") 3) with
        status := "failed",
        failure_reason :=
          some ("Failed after " ++ toString 3 ++ " retries: " ++
            "Simulated transient processing error") } :=
  c5_exhausted_failure_reason (.string "a") (.string "sales_summary")
    .object (wfStep (wfStep (wfStep demoStore0))) envWorkFail 3
    (ReportRecord.mk "pending" none
      (some "Simulated transient processing error") 3)
    "Simulated transient processing error"
    (by decide) (by decide) rfl rfl rfl rfl rfl (by decide)

/-- C9: if, after a work failure, the accounting write (`pending` retry
bookkeeping or `failed` marking) is the database call that fails, the
worker nack-requeues the message and leaves the table exactly as it
stood when the work function failed: the record keeps its
`retry_count`, `failure_reason` and `generated_url`, only the earlier
`processing` status write having taken effect. -/
theorem c9_accounting_write_failure_requeues (rid jt p : JSVal)
    (store : Store) (env : WorkerEnv) (maxRetries : Nat)
    (r : ReportRecord) (e m : String)
    (hrid : rid.truthy = true) (h : lookupRec store rid = some r)
    (h1 : env.get1Err = none) (h2 : env.setProcessingErr = none)
    (hw : env.workErr = some e) (h3 : env.get2Err = none)
    (h4 : env.setAccountingErr = some m) :
    processMessage (.parsed rid jt p) store env maxRetries =
      (updateRec store rid procWrite, .nackRequeue) ∧
    lookupRec (processMessage (.parsed rid jt p) store env maxRetries).1
        rid = some { r with status := "processing" } := by
  have hlk : lookupRec (updateRec store rid procWrite) rid =
      some (procWrite r) := lookupRec_updateRec_self _ _ _ r h
  have hred := processMessage_workFail rid jt p store env maxRetries r e
    hrid h h1 h2 hw
  have hch : catchHandler rid (updateRec store rid procWrite) env
      maxRetries e = (updateRec store rid procWrite, .nackRequeue) := by
    by_cases hlt : (procWrite r).retry_count < maxRetries <;>
      simp [catchHandler, h3, hlk, h4, hlt]
  rw [hred, hch]
  exact ⟨rfl, hlk⟩

theorem c9_witness :
    processMessage demoMsg demoStore0
      { envWorkFail with setAccountingErr := some "db down" } 3 =
      (updateRec demoStore0 (.string "a") procWrite, .nackRequeue) ∧
    lookupRec (processMessage demoMsg demoStore0
        { envWorkFail with setAccountingErr := some "db down" } 3).1
        (.string "a") =
      some { initRecord with status := "processing" } :=
  c9_accounting_write_failure_requeues (.string "a")
    (.string "sales_summary") .object demoStore0
    { envWorkFail with setAccountingErr := some "db down" } 3 initRecord
    "Simulated transient processing error" "db down"
    (by decide) (by decide) rfl rfl rfl rfl rfl

/-- C7: for a submission that passes validation, a failing database
insert makes the saga stop with the storage error and nothing is
published; a failing publish after a successful insert makes the
controller issue the compensating best-effort `DELETE` of the
just-created record and respond with the queue error. -/
theorem c7_ingestion_saga_failures (report_type parameters : JSVal)
    (publishOk deleteOk : Bool)
    (hv : validateSubmission report_type parameters = none) :
    (ingestSubmit report_type parameters false publishOk deleteOk =
       (.storageError,
        { recordInserted := false, messagePublished := false,
          deleteIssued := false, recordDeleted := false })) ∧
    ((ingestSubmit report_type parameters true false deleteOk).1 =
       .queueError ∧
     (ingestSubmit report_type parameters true false
       deleteOk).2.messagePublished = false ∧
     (ingestSubmit report_type parameters true false
       deleteOk).2.deleteIssued = true ∧
     (ingestSubmit report_type parameters true false
       deleteOk).2.recordDeleted = deleteOk) := by
  refine ⟨?_, ?_, ?_, ?_, ?_⟩ <;> simp [ingestSubmit, hv]

theorem c7_witness :
    (ingestSubmit (.string "sales_summary") .object false true true =
       (.storageError,
        { recordInserted := false, messagePublished := false,
          deleteIssued := false, recordDeleted := false })) ∧
    ((ingestSubmit (.string "sales_summary") .object true false true).1 =
       .queueError ∧
     (ingestSubmit (.string "sales_summary") .object true false
       true).2.messagePublished = false ∧
     (ingestSubmit (.string "sales_summary") .object true false
       true).2.deleteIssued = true ∧
     (ingestSubmit (.string "sales_summary") .object true false
       true).2.recordDeleted = true) :=
  c7_ingestion_saga_failures (.string "sales_summary") .object true true
    rfl

/-- C8 counterexample: `report_type = ""` is present and a string, so
the spec's condition does not call for rejection, yet the controller's
`!report_type` truthiness test rejects it.  The claimed "if and only
if" therefore fails on the code. -/
theorem c8_counterexample :
    (ingestSubmit (.string "") .undef true true true).1 =
      .validationError "report_type is required and must be a string" ∧
    specValidationRejects (.string "") .undef = false :=
  ⟨rfl, rfl⟩

/-- C8 (amended): the controller returns a validation error exactly when
`report_type` is falsy (absent, empty string, and the like) or not of
JavaScript string type, or `parameters` is truthy and not of JavaScript
object type; and on a validation failure no record is inserted, no
message published, and no delete issued. -/
theorem c8_validation_rejects_iff (report_type parameters : JSVal)
    (insertOk publishOk deleteOk : Bool) :
    ((∃ m, (ingestSubmit report_type parameters insertOk publishOk
        deleteOk).1 = .validationError m) ↔
      ((report_type.truthy = false ∨ report_type.typeof ≠ "string") ∨
       (parameters.truthy = true ∧ parameters.typeof ≠ "object"))) ∧
    (∀ m, (ingestSubmit report_type parameters insertOk publishOk
        deleteOk).1 = .validationError m →
      (ingestSubmit report_type parameters insertOk publishOk
        deleteOk).2 =
        { recordInserted := false, messagePublished := false,
          deleteIssued := false, recordDeleted := false }) := by
  by_cases hA : report_type.truthy = false ∨ report_type.typeof ≠ "string"
  · have hv : validateSubmission report_type parameters =
        some "report_type is required and must be a string" := by
      unfold validateSubmission
      rw [if_pos hA]
    exact ⟨⟨fun _ => Or.inl hA,
      fun _ => ⟨"report_type is required and must be a string",
        by simp [ingestSubmit, hv]⟩⟩,
      fun m hm => by simp [ingestSubmit, hv]⟩
  · by_cases hB : parameters.truthy = true ∧ parameters.typeof ≠ "object"
    · have hv : validateSubmission report_type parameters =
          some "parameters must be an object" := by
        unfold validateSubmission
        rw [if_neg hA, if_pos hB]
      exact ⟨⟨fun _ => Or.inr hB,
        fun _ => ⟨"parameters must be an object",
          by simp [ingestSubmit, hv]⟩⟩,
        fun m hm => by simp [ingestSubmit, hv]⟩
    · have hv : validateSubmission report_type parameters = none := by
        unfold validateSubmission
        rw [if_neg hA, if_neg hB]
      constructor
      · constructor
        · rintro ⟨m, hm⟩
          exfalso
          by_cases hI : insertOk = false <;> by_cases hP : publishOk = false <;>
            simp [ingestSubmit, hv, hI, hP] at hm
        · intro hOr
          exact absurd hOr (not_or.mpr ⟨hA, hB⟩)
      · intro m hm
        exfalso
        by_cases hI : insertOk = false <;> by_cases hP : publishOk = false <;>
          simp [ingestSubmit, hv, hI, hP] at hm

theorem c8_witness :
    (∃ m, (ingestSubmit (.number 5) .object true true true).1 =
      .validationError m) ∧
    (∀ m, (ingestSubmit (.number 5) .object true true true).1 =
        .validationError m →
      (ingestSubmit (.number 5) .object true true true).2 =
        { recordInserted := false, messagePublished := false,
          deleteIssued := false, recordDeleted := false }) :=
  ⟨(c8_validation_rejects_iff (.number 5) .object true true true).1.mpr
      (Or.inl (Or.inr (by decide))),
   (c8_validation_rejects_iff (.number 5) .object true true true).2⟩
